import Mathlib

/-!
Verification of the audio subsystem contract of `src/src/raylib.h`
(raylib-renamed).  The repository ships only the public header: every
audio function is a declaration (`rl_PlaySound`, `rl_LoadSoundAlias`,
`rl_UpdateMusicStream`, ...) whose body lives in the missing raudio
module.  Following the specification (spec.md §§3-8), we build a shallow
embedding of the audio data model and operations: samples are exact
rationals, buffers are lists of samples, voices carry an explicit state
record, and the mixer is a step function over the set of voices.
-/

namespace Raudio

/-- Interleaved sample values; the spec processes float blocks, modelled
exactly as rationals. -/
abbrev Sample := ℚ

/-- Play status of a voice, spec §4.2 state machine
{Stopped → Playing ⇄ Paused → Stopped}. -/
inductive PlayState
  | stopped
  | playing
  | paused
deriving DecidableEq, Repr

/-- Modelled from the spec: §3 Voice State of the missing raudio module —
per-playback attributes behind `rAudioBuffer` in `rl_AudioStream`:
play status, loop flag, volume, pitch multiplier, pan and cursor. -/
structure VoiceState where
  status : PlayState
  looping : Bool
  volume : ℚ
  pitch : ℚ
  pan : ℚ
  cursor : ℕ
deriving DecidableEq, Repr

/-- A fresh voice: stopped, no loop, full volume, unit pitch, centered pan,
cursor at 0. -/
def initVoice : VoiceState :=
  { status := .stopped, looping := false, volume := 1, pitch := 1,
    pan := 1/2, cursor := 0 }

/-- Clamp a value into the closed interval from lo to hi. -/
def clampQ (lo hi x : ℚ) : ℚ := max lo (min hi x)

/-- Modelled from the spec: the missing `rl_SetAudioStreamVolume` body —
§4.2 setters clamp out-of-range inputs into the domain [0,1]. -/
def setVolume (v : ℚ) (s : VoiceState) : VoiceState :=
  { s with volume := clampQ 0 1 v }

/-- Modelled from the spec: the missing `rl_SetAudioStreamPan` body —
pan is clamped into [0,1] (0.5 = center). -/
def setPan (p : ℚ) (s : VoiceState) : VoiceState :=
  { s with pan := clampQ 0 1 p }

/-- Modelled from the spec: the missing `rl_SetAudioStreamPitch` body —
the pitch multiplier must stay positive; a non-positive input is not
stored. -/
def setPitch (p : ℚ) (s : VoiceState) : VoiceState :=
  if 0 < p then { s with pitch := p } else s

/-- Modelled from the spec: the missing `rl_PlayAudioStream` body —
§4.2: play on an already-Playing stream is a no-op; otherwise the voice
enters the Playing state. -/
def playVoice (s : VoiceState) : VoiceState :=
  if s.status = .playing then s else { s with status := .playing }

/-- Modelled from the spec: the missing `rl_StopAudioStream` body —
§4.2: stop always returns to Stopped and resets the cursor to 0. -/
def stopVoice (s : VoiceState) : VoiceState :=
  { s with status := .stopped, cursor := 0 }

/-- Modelled from the spec: the missing `rl_PauseAudioStream` body. -/
def pauseVoice (s : VoiceState) : VoiceState :=
  if s.status = .playing then { s with status := .paused } else s

/-- Modelled from the spec: the missing `rl_ResumeAudioStream` body. -/
def resumeVoice (s : VoiceState) : VoiceState :=
  if s.status = .paused then { s with status := .playing } else s

/-- Modelled from the spec: the missing `rl_IsAudioStreamPlaying` body. -/
def isVoicePlaying (s : VoiceState) : Bool :=
  s.status = .playing

/-! ### Shared sample storage and reference counting (spec §3, §4.3) -/

/-- Modelled from the spec: the missing `rAudioBuffer` storage — one
fully-resident PCM store shared by a source sound and its aliases,
carrying the reference count of §3 and a freed flag tracking whether the
backing storage has been released. -/
structure SharedBuffer where
  data : List Sample
  refCount : ℕ
  freed : Bool
deriving DecidableEq, Repr

/-- Modelled from the spec: the missing `rl_LoadSoundAlias` effect on the
shared storage — §4.3: retain the same buffer reference, incrementing its
reference count; the sample data is never copied or mutated. -/
def aliasRetain (b : SharedBuffer) : SharedBuffer :=
  { b with refCount := b.refCount + 1 }

/-- Modelled from the spec: the missing `rl_UnloadSoundAlias` effect on the
shared storage — §4.3: only decrement the reference count; the backing
storage is released exactly when the count reaches zero. -/
def aliasRelease (b : SharedBuffer) : SharedBuffer :=
  if b.refCount - 1 = 0 then
    { b with refCount := 0, freed := true }
  else
    { b with refCount := b.refCount - 1 }

/-! ### Processor chains (spec §3, §4.2)

A stage is an opaque callable; we model a chain as a list of stage
identifiers and interpret each identifier as a block transform through an
environment, so chains have decidable equality while stages stay
arbitrary transforms.  The same operations serve the per-voice chain
(`rl_AttachAudioStreamProcessor` / `rl_DetachAudioStreamProcessor`) and
the global post-mix chain (`rl_AttachAudioMixedProcessor` /
`rl_DetachAudioMixedProcessor`). -/

/-- A processor stage identifier. -/
abbrev StageId := ℕ

/-- Modelled from the spec: the missing attach bodies — §3: attach is an
idempotent no-op if the stage is already present; otherwise the stage is
appended, so ordering is insertion order. -/
def attachProcessor (p : StageId) (c : List StageId) : List StageId :=
  if p ∈ c then c else c ++ [p]

/-- Modelled from the spec: the missing detach bodies — §3: detach is an
idempotent no-op if the stage is absent; otherwise it removes the stage,
leaving the other stages in their insertion order. -/
def detachProcessor (p : StageId) (c : List StageId) : List StageId :=
  c.erase p

/-- Run a chain over an interleaved float block: stages apply in
insertion order, each reading the previous stage's output. -/
def applyChain (interp : StageId → List Sample → List Sample)
    (c : List StageId) (block : List Sample) : List Sample :=
  c.foldl (fun b p => interp p b) block

/-! ### Mixer over aliases of one resident buffer (spec §4.3, §4.5)

Modelled from the spec: the missing raudio mixer loop.  All aliases share
one fully-resident sample buffer; each owns an independent cursor and
play flag.  A schedule assigns each alias its start tick.  Each mixer
tick first starts the aliases whose start time equals the current tick
(cursor 0), then sums every playing alias's sample at its own cursor
into the output, then advances every playing cursor by one frame. -/

/-- Bounds-checked buffer read: out-of-range reads yield 0. -/
def readBuf (buf : List Sample) (i : ℕ) : Sample := buf.getD i 0

/-- One alias's mixing state: whether its voice is playing and its
private cursor into the shared buffer. -/
structure AliasVoice where
  playing : Bool
  cursor : ℕ
deriving DecidableEq, Repr

/-- An alias voice before its scheduled start: not playing, cursor 0. -/
def idleAlias : AliasVoice := { playing := false, cursor := 0 }

/-- The sample an alias contributes to the current mixer tick: its buffer
read at its own cursor while playing, silence otherwise. -/
def voiceSample (buf : List Sample) (v : AliasVoice) : Sample :=
  if v.playing then readBuf buf v.cursor else 0

/-- Start an alias whose scheduled start time is the current tick. -/
def startDue (t : ℕ) (start : ℕ) (v : AliasVoice) : AliasVoice :=
  if start = t then { v with playing := true, cursor := 0 } else v

/-- Advance a playing alias's cursor by one frame after mixing. -/
def stepVoice (v : AliasVoice) : AliasVoice :=
  if v.playing then { v with cursor := v.cursor + 1 } else v

/-- Stop one alias (the `rl_StopSound` effect on its mixing state):
its voice leaves the playing set; siblings are untouched. -/
def stopAlias (vs : List AliasVoice) (i : ℕ) : List AliasVoice :=
  vs.set i { (vs.getD i idleAlias) with playing := false }

/-- Sum of the contributions of all alias voices for this tick. -/
def mixOut (buf : List Sample) (vs : List AliasVoice) : Sample :=
  (vs.map (voiceSample buf)).sum

/-- One mixer tick at time t: start due aliases, emit the mixed sample,
advance the playing cursors. -/
def mixStep (buf : List Sample) (starts : List ℕ) (t : ℕ)
    (vs : List AliasVoice) : Sample × List AliasVoice :=
  let started := List.zipWith (startDue t) starts vs
  (mixOut buf started, started.map stepVoice)

/-- Alias states after running ticks 0, 1, ..., t-1 from the idle start. -/
def afterTicks (buf : List Sample) (starts : List ℕ) : ℕ → List AliasVoice
  | 0 => starts.map (fun _ => idleAlias)
  | t + 1 => (mixStep buf starts t (afterTicks buf starts t)).2

/-- The mixed output sample the machine emits at tick t. -/
def outputAt (buf : List Sample) (starts : List ℕ) (t : ℕ) : Sample :=
  (mixStep buf starts t (afterTicks buf starts t)).1

/-- The specified superposition at time t: every alias whose start time
has passed contributes its buffer read at its own time offset. -/
def superposition (buf : List Sample) (starts : List ℕ) (t : ℕ) : Sample :=
  ((starts.filter (· ≤ t)).map (fun s => readBuf buf (t - s))).sum

/-! ### Streaming tracks (spec §3, §4.4) -/

/-- Modelled from the spec: the missing decode context (`ctxData` behind
`rl_Music`) — the fully decoded source PCM together with the position
already decoded into the live window. -/
structure DecodeCtx where
  source : List Sample
  pos : ℕ
deriving DecidableEq, Repr

/-- Modelled from the spec: one step of the codec collaborator's decode
interface — §4.4: return the next source frame and advance the decode
position; at end-of-stream, seek back to the start and continue with
frame 0 if looping, otherwise signal end-of-stream with none. -/
def decodeNext (loop : Bool) (c : DecodeCtx) : Option (Sample × DecodeCtx) :=
  if h : c.pos < c.source.length then
    some (c.source.get ⟨c.pos, h⟩, { c with pos := c.pos + 1 })
  else if loop && c.source.length != 0 then
    some (c.source.getD 0 0, { c with pos := 1 })
  else
    none

/-- The n-th frame the decode interface delivers from a context, or none
once a non-looping context has reached end-of-stream. -/
def decodeSeq (loop : Bool) : ℕ → DecodeCtx → Option Sample
  | 0, c => (decodeNext loop c).map Prod.fst
  | n + 1, c =>
    match decodeNext loop c with
    | some (_, c1) => decodeSeq loop n c1
    | none => none

/-- Decode up to n frames into a fresh window segment, stopping early at
end-of-stream of a non-looping context. -/
def refill (loop : Bool) (c : DecodeCtx) : ℕ → List Sample × DecodeCtx
  | 0 => ([], c)
  | n + 1 =>
    match decodeNext loop c with
    | none => ([], c)
    | some (x, c1) =>
      let r := refill loop c1 n
      (x :: r.1, r.2)

/-- Modelled from the spec: the missing streaming-track state behind
`rl_Music` — the decode context, the loop flag, the window of buffered
decoded frames, and the voice play status. -/
structure MusicState where
  ctx : DecodeCtx
  looping : Bool
  window : List Sample
  status : PlayState
deriving DecidableEq, Repr

/-- Modelled from the spec: the missing `rl_UpdateMusicStream` body —
§4.4: decode the next chunk into the window up to the window capacity;
at end-of-stream a looping context has already wrapped inside
`decodeNext`, while a non-looping track transitions to Stopped once its
window of buffered frames is exhausted. -/
def rl_UpdateMusicStream (cap : ℕ) (m : MusicState) : MusicState :=
  let r := refill m.looping m.ctx (cap - m.window.length)
  let w := m.window ++ r.1
  if w.isEmpty && !m.looping then
    { m with ctx := r.2, window := w, status := .stopped }
  else
    { m with ctx := r.2, window := w }

/-- Modelled from the spec: the mixer's per-frame read from a streaming
track's window — §7(d): an emptied window yields silence for the starved
interval, never a read outside the buffered frames. -/
def mixMusicFrame (m : MusicState) : Sample × MusicState :=
  match m.window with
  | [] => (0, m)
  | x :: rest => (x, { m with window := rest })

/-! ### Public resource records and readiness (header structs, spec §6-7) -/

/-- `rl_AudioStream` of raylib.h:456-463: the internal buffer and voice
state live behind the `rAudioBuffer` pointer, here an Option that is none
exactly when the pointer is null; format fields as declared. -/
structure rl_AudioStream where
  buffer : Option (List Sample × VoiceState)
  sampleRate : ℕ
  sampleSize : ℕ
  channels : ℕ
deriving DecidableEq, Repr

/-- `rl_Sound` of raylib.h:466-469: an audio stream plus the total frame
count. -/
structure rl_Sound where
  stream : rl_AudioStream
  frameCount : ℕ
deriving DecidableEq, Repr

/-- `rl_Wave` of raylib.h:442-448: frame metadata plus the data pointer,
none when null. -/
structure rl_Wave where
  frameCount : ℕ
  sampleRate : ℕ
  sampleSize : ℕ
  channels : ℕ
  data : Option (List Sample)
deriving DecidableEq, Repr

/-- `rl_Music` of raylib.h:472-479: an audio stream, frame count, loop
flag and the codec context, none when the `ctxData` pointer is null. -/
structure rl_Music where
  stream : rl_AudioStream
  frameCount : ℕ
  looping : Bool
  ctxData : Option DecodeCtx
deriving DecidableEq, Repr

/-- The zeroed, not-ready `rl_AudioStream` a failed load returns. -/
def zeroAudioStream : rl_AudioStream :=
  { buffer := none, sampleRate := 0, sampleSize := 0, channels := 0 }

/-- The zeroed, not-ready `rl_Wave` a failed load returns. -/
def zeroWave : rl_Wave :=
  { frameCount := 0, sampleRate := 0, sampleSize := 0, channels := 0,
    data := none }

/-- The zeroed, not-ready `rl_Sound` a failed load returns. -/
def zeroSound : rl_Sound :=
  { stream := zeroAudioStream, frameCount := 0 }

/-- The zeroed, not-ready `rl_Music` a failed load returns. -/
def zeroMusic : rl_Music :=
  { stream := zeroAudioStream, frameCount := 0, looping := false,
    ctxData := none }

/-- Modelled from the spec: the missing `rl_IsAudioStreamReady` body —
§6: readiness means the internal buffer exists and the format fields are
valid. -/
def rl_IsAudioStreamReady (s : rl_AudioStream) : Bool :=
  s.buffer.isSome && decide (0 < s.sampleRate) && decide (0 < s.sampleSize)
    && decide (0 < s.channels)

/-- Modelled from the spec: the missing `rl_IsWaveReady` body. -/
def rl_IsWaveReady (w : rl_Wave) : Bool :=
  w.data.isSome && decide (0 < w.frameCount) && decide (0 < w.sampleRate)
    && decide (0 < w.sampleSize) && decide (0 < w.channels)

/-- Modelled from the spec: the missing `rl_IsSoundReady` body. -/
def rl_IsSoundReady (s : rl_Sound) : Bool :=
  rl_IsAudioStreamReady s.stream && decide (0 < s.frameCount)

/-- Modelled from the spec: the missing `rl_IsMusicReady` body. -/
def rl_IsMusicReady (m : rl_Music) : Bool :=
  rl_IsAudioStreamReady m.stream && m.ctxData.isSome
    && decide (0 < m.frameCount)

/-- Modelled from the spec: the missing `rl_LoadAudioStream` body — §7:
the internal buffer allocation may fail (collaborator result none); on
failure the zeroed not-ready value is returned, never a partial one. -/
def rl_LoadAudioStream (alloc : Option (List Sample × VoiceState))
    (sampleRate sampleSize channels : ℕ) : rl_AudioStream :=
  match alloc with
  | none => zeroAudioStream
  | some b =>
    { buffer := some b, sampleRate := sampleRate, sampleSize := sampleSize,
      channels := channels }

/-- Modelled from the spec: the missing `rl_LoadWave` body — the decode
collaborator either fails (none) or yields sample data and a format; on
failure the zeroed not-ready wave is returned. -/
def rl_LoadWave (decoded : Option (List Sample × ℕ × ℕ × ℕ × ℕ)) : rl_Wave :=
  match decoded with
  | none => zeroWave
  | some (d, fc, rate, size, ch) =>
    { frameCount := fc, sampleRate := rate, sampleSize := size,
      channels := ch, data := some d }

/-- Modelled from the spec: the missing `rl_LoadSoundFromWave` body —
a not-ready wave yields the zeroed sound; otherwise a fresh voice over
the wave's data. -/
def rl_LoadSoundFromWave (w : rl_Wave) : rl_Sound :=
  match w.data with
  | none => zeroSound
  | some d =>
    if 0 < w.frameCount && 0 < w.sampleRate && 0 < w.sampleSize
        && 0 < w.channels then
      { stream :=
          { buffer := some (d, initVoice), sampleRate := w.sampleRate,
            sampleSize := w.sampleSize, channels := w.channels },
        frameCount := w.frameCount }
    else zeroSound

/-- Modelled from the spec: the missing `rl_LoadSoundAlias` body at the
resource level — §4.3: a new sound retaining the same sample data as the
source but a fresh, independent voice state, with the source's format and
frame count; aliasing a not-ready source fails and returns the zeroed
not-ready sound (§7: load failures yield a not-ready resource, never a
partially constructed one). -/
def rl_LoadSoundAlias (source : rl_Sound) : rl_Sound :=
  if rl_IsSoundReady source then
    match source.stream.buffer with
    | none => zeroSound
    | some b =>
      { stream :=
          { buffer := some (b.1, initVoice),
            sampleRate := source.stream.sampleRate,
            sampleSize := source.stream.sampleSize,
            channels := source.stream.channels },
        frameCount := source.frameCount }
  else zeroSound

/-- Modelled from the spec: the missing `rl_LoadMusicStream` body — the
codec collaborator either fails (none) or opens a decode context with a
known frame count and format. -/
def rl_LoadMusicStream (opened : Option (DecodeCtx × ℕ × ℕ × ℕ × ℕ))
    (window : List Sample × VoiceState) : rl_Music :=
  match opened with
  | none => zeroMusic
  | some (c, fc, rate, size, ch) =>
    { stream :=
        { buffer := some window, sampleRate := rate, sampleSize := size,
          channels := ch },
      frameCount := fc, looping := false, ctxData := some c }

/-! ### Stream-level and sound-level operations (raylib.h:1623-1668) -/

/-- Apply a voice-state transition to the voice held behind a stream's
internal buffer pointer; a null buffer absorbs the call silently
(spec §7: playback-time failures are silently absorbed). -/
def onVoice (f : VoiceState → VoiceState) (s : rl_AudioStream) :
    rl_AudioStream :=
  { s with buffer := s.buffer.map (fun b => (b.1, f b.2)) }

/-- Modelled from the spec: the missing `rl_PlayAudioStream` body. -/
def rl_PlayAudioStream (s : rl_AudioStream) : rl_AudioStream :=
  onVoice playVoice s

/-- Modelled from the spec: the missing `rl_StopAudioStream` body. -/
def rl_StopAudioStream (s : rl_AudioStream) : rl_AudioStream :=
  onVoice stopVoice s

/-- Modelled from the spec: the missing `rl_PauseAudioStream` body. -/
def rl_PauseAudioStream (s : rl_AudioStream) : rl_AudioStream :=
  onVoice pauseVoice s

/-- Modelled from the spec: the missing `rl_ResumeAudioStream` body. -/
def rl_ResumeAudioStream (s : rl_AudioStream) : rl_AudioStream :=
  onVoice resumeVoice s

/-- Modelled from the spec: the missing `rl_IsAudioStreamPlaying` body. -/
def rl_IsAudioStreamPlaying (s : rl_AudioStream) : Bool :=
  match s.buffer with
  | none => false
  | some b => isVoicePlaying b.2

/-- Modelled from the spec: the missing `rl_SetAudioStreamVolume` body. -/
def rl_SetAudioStreamVolume (s : rl_AudioStream) (v : ℚ) : rl_AudioStream :=
  onVoice (setVolume v) s

/-- Modelled from the spec: the missing `rl_SetAudioStreamPitch` body. -/
def rl_SetAudioStreamPitch (s : rl_AudioStream) (p : ℚ) : rl_AudioStream :=
  onVoice (setPitch p) s

/-- Modelled from the spec: the missing `rl_SetAudioStreamPan` body. -/
def rl_SetAudioStreamPan (s : rl_AudioStream) (p : ℚ) : rl_AudioStream :=
  onVoice (setPan p) s

/-- Modelled from the spec: the missing `rl_PlaySound` body — the sound
wrapper plays the voice held behind its embedded stream's buffer. -/
def rl_PlaySound (s : rl_Sound) : rl_Sound :=
  { s with stream :=
      { s.stream with
        buffer := s.stream.buffer.map (fun b => (b.1, playVoice b.2)) } }

/-- Modelled from the spec: the missing `rl_StopSound` body. -/
def rl_StopSound (s : rl_Sound) : rl_Sound :=
  { s with stream :=
      { s.stream with
        buffer := s.stream.buffer.map (fun b => (b.1, stopVoice b.2)) } }

/-- Modelled from the spec: the missing `rl_PauseSound` body. -/
def rl_PauseSound (s : rl_Sound) : rl_Sound :=
  { s with stream :=
      { s.stream with
        buffer := s.stream.buffer.map (fun b => (b.1, pauseVoice b.2)) } }

/-- Modelled from the spec: the missing `rl_ResumeSound` body. -/
def rl_ResumeSound (s : rl_Sound) : rl_Sound :=
  { s with stream :=
      { s.stream with
        buffer := s.stream.buffer.map (fun b => (b.1, resumeVoice b.2)) } }

/-- Modelled from the spec: the missing `rl_IsSoundPlaying` body. -/
def rl_IsSoundPlaying (s : rl_Sound) : Bool :=
  match s.stream.buffer with
  | none => false
  | some b => isVoicePlaying b.2

/-- Modelled from the spec: the missing `rl_SetSoundVolume` body. -/
def rl_SetSoundVolume (s : rl_Sound) (v : ℚ) : rl_Sound :=
  { s with stream :=
      { s.stream with
        buffer := s.stream.buffer.map (fun b => (b.1, setVolume v b.2)) } }

/-- Modelled from the spec: the missing `rl_SetSoundPitch` body. -/
def rl_SetSoundPitch (s : rl_Sound) (p : ℚ) : rl_Sound :=
  { s with stream :=
      { s.stream with
        buffer := s.stream.buffer.map (fun b => (b.1, setPitch p b.2)) } }

/-- Modelled from the spec: the missing `rl_SetSoundPan` body. -/
def rl_SetSoundPan (s : rl_Sound) (p : ℚ) : rl_Sound :=
  { s with stream :=
      { s.stream with
        buffer := s.stream.buffer.map (fun b => (b.1, setPan p b.2)) } }

/-- Modelled from the spec: the missing `rl_StopMusicStream` body —
stop the track's voice; §4.2: back to Stopped with cursor 0. -/
def rl_StopMusicStream (m : rl_Music) : rl_Music :=
  { m with stream := rl_StopAudioStream m.stream }

/-! ### Concrete instances used by witnesses and counterexamples -/

/-- A concrete processor stage interpretation: every stage adds 1 to each
sample of the block. -/
def exInterp : StageId → List Sample → List Sample :=
  fun _ b => b.map (fun x => x + 1)

/-- A concrete non-looping track at end-of-stream with an empty window. -/
def exMusicEos : MusicState :=
  { ctx := { source := [10, 20, 30], pos := 3 }, looping := false,
    window := [], status := .playing }

/-- A concrete playing track with an empty window, not yet at
end-of-stream. -/
def exMusicStarved : MusicState :=
  { ctx := { source := [7, 8], pos := 0 }, looping := false,
    window := [], status := .playing }

/-- The closed-form state of an alias voice with start time s after t
mixer ticks: playing with cursor t − s once started, idle before. -/
def aliasStateAt (t s : ℕ) : AliasVoice :=
  if s < t then { playing := true, cursor := t - s } else idleAlias

/-- A concrete shared buffer of 14 frames. -/
def exAliasBuf : List Sample :=
  [3, 1, 4, 1, 5, 9, 2, 6, 5, 3, 5, 8, 9, 7]

/-- Three concrete alias voices mid-playback. -/
def exAliasVoices : List AliasVoice :=
  [{ playing := true, cursor := 12 }, { playing := true, cursor := 7 },
   { playing := true, cursor := 2 }]

/-! ## Theorems -/

/-- Clamping into an interval stays within it. -/
theorem clampQ_mem (lo hi x : ℚ) (h : lo ≤ hi) :
    lo ≤ clampQ lo hi x ∧ clampQ lo hi x ≤ hi := by
  unfold clampQ
  constructor
  · exact le_max_left lo _
  · exact max_le h (min_le_left hi x)

/-- Clamping an in-domain value is the identity. -/
theorem clampQ_of_mem (lo hi x : ℚ) (h1 : lo ≤ x) (h2 : x ≤ hi) :
    clampQ lo hi x = x := by
  unfold clampQ
  rw [min_eq_right h2, max_eq_right h1]

/-- C5: the volume, pitch and pan setters clamp out-of-domain inputs into
their domains instead of rejecting them or storing the invalid value:
volume into [0,1] (−0.5 becomes 0), pan into [0,1] (1.7 becomes 1), and
the pitch stays a positive multiplier; in-domain inputs are stored
unchanged. -/
theorem setters_clamp_into_domain (s : VoiceState) (x : ℚ) :
    0 ≤ (setVolume x s).volume ∧ (setVolume x s).volume ≤ 1
    ∧ (0 ≤ x → x ≤ 1 → (setVolume x s).volume = x)
    ∧ 0 ≤ (setPan x s).pan ∧ (setPan x s).pan ≤ 1
    ∧ (0 ≤ x → x ≤ 1 → (setPan x s).pan = x)
    ∧ (0 < s.pitch → 0 < (setPitch x s).pitch)
    ∧ (0 < x → (setPitch x s).pitch = x)
    ∧ (setVolume (-(1/2)) s).volume = 0
    ∧ (setPan (17/10) s).pan = 1 := by
  refine ⟨(clampQ_mem 0 1 x (by norm_num)).1, (clampQ_mem 0 1 x (by norm_num)).2,
    fun h1 h2 => clampQ_of_mem 0 1 x h1 h2,
    (clampQ_mem 0 1 x (by norm_num)).1, (clampQ_mem 0 1 x (by norm_num)).2,
    fun h1 h2 => clampQ_of_mem 0 1 x h1 h2, ?_, ?_, ?_, ?_⟩
  · intro hp
    unfold setPitch
    split
    · simpa using (by assumption : 0 < x)
    · exact hp
  · intro hx
    unfold setPitch
    rw [if_pos hx]
  · show clampQ 0 1 (-(1/2)) = 0
    unfold clampQ
    norm_num
  · show clampQ 0 1 (17/10) = 1
    unfold clampQ
    norm_num

/-- Witness for C5 at a concrete voice and input. -/
theorem setters_clamp_into_domain_witness :
    (setVolume (3/4) initVoice).volume = 3/4
    ∧ (setPitch (3/4) initVoice).pitch = 3/4
    ∧ (setVolume (-(1/2)) initVoice).volume = 0
    ∧ (setPan (17/10) initVoice).pan = 1 := by
  have h := setters_clamp_into_domain initVoice (3/4)
  exact ⟨h.2.2.1 (by norm_num) (by norm_num),
    h.2.2.2.2.2.2.2.1 (by norm_num), h.2.2.2.2.2.2.2.2.1, h.2.2.2.2.2.2.2.2.2⟩

/-- C7: stop always transitions the voice to Stopped and resets its
cursor to 0, at the voice level and lifted through `rl_StopAudioStream`,
`rl_StopSound` and `rl_StopMusicStream` to the voice behind each
stream's buffer. -/
theorem stop_resets_to_stopped (s : VoiceState) (st : rl_AudioStream)
    (snd : rl_Sound) (m : rl_Music) :
    (stopVoice s).status = .stopped ∧ (stopVoice s).cursor = 0
    ∧ (∀ d v, st.buffer = some (d, v) →
        (rl_StopAudioStream st).buffer = some (d, stopVoice v))
    ∧ (∀ d v, snd.stream.buffer = some (d, v) →
        (rl_StopSound snd).stream.buffer = some (d, stopVoice v))
    ∧ (∀ d v, m.stream.buffer = some (d, v) →
        (rl_StopMusicStream m).stream.buffer = some (d, stopVoice v)) := by
  refine ⟨rfl, rfl, ?_, ?_, ?_⟩ <;>
    intro d v h <;>
    simp [rl_StopAudioStream, rl_StopSound, rl_StopMusicStream, onVoice, h]

/-- Witness for C7 at a concrete playing voice, stream, sound and music. -/
theorem stop_resets_to_stopped_witness :
    (stopVoice { initVoice with status := .playing, cursor := 7 }).status
        = .stopped
    ∧ (rl_StopSound
        { stream :=
            { buffer :=
                some ([1, 2], { initVoice with status := .playing, cursor := 3 }),
              sampleRate := 44100, sampleSize := 16, channels := 1 },
          frameCount := 2 }).stream.buffer
      = some ([1, 2], stopVoice { initVoice with status := .playing, cursor := 3 }) := by
  have h := stop_resets_to_stopped
    { initVoice with status := .playing, cursor := 7 }
    zeroAudioStream
    { stream :=
        { buffer :=
            some ([1, 2], { initVoice with status := .playing, cursor := 3 }),
          sampleRate := 44100, sampleSize := 16, channels := 1 },
      frameCount := 2 }
    zeroMusic
  exact ⟨h.1, h.2.2.2.1 [1, 2] { initVoice with status := .playing, cursor := 3 } rfl⟩

/-- C8: play on an already-Playing voice is a no-op — the cursor, status
and every parameter are unchanged — at the voice level and lifted through
`rl_PlayAudioStream` and `rl_PlaySound`. -/
theorem play_on_playing_noop :
    (∀ s : VoiceState, s.status = .playing → playVoice s = s)
    ∧ (∀ st : rl_AudioStream,
        rl_IsAudioStreamPlaying st = true → rl_PlayAudioStream st = st)
    ∧ (∀ snd : rl_Sound,
        rl_IsSoundPlaying snd = true → rl_PlaySound snd = snd) := by
  have hv : ∀ s : VoiceState, s.status = .playing → playVoice s = s := by
    intro s h
    unfold playVoice
    rw [if_pos h]
  refine ⟨hv, ?_, ?_⟩
  · intro st h
    have hbuf : st.buffer.map (fun b => (b.1, playVoice b.2)) = st.buffer := by
      match hb : st.buffer with
      | none => rfl
      | some b =>
        have hp : b.2.status = .playing := by
          simpa [rl_IsAudioStreamPlaying, hb, isVoicePlaying] using h
        simp [hv b.2 hp]
    simp [rl_PlayAudioStream, onVoice, hbuf]
  · intro snd h
    have hbuf : snd.stream.buffer.map (fun b => (b.1, playVoice b.2))
        = snd.stream.buffer := by
      match hb : snd.stream.buffer with
      | none => rfl
      | some b =>
        have hp : b.2.status = .playing := by
          simpa [rl_IsSoundPlaying, hb, isVoicePlaying] using h
        simp [hv b.2 hp]
    simp [rl_PlaySound, hbuf]

/-- Witness for C8 at a concrete playing voice and sound. -/
theorem play_on_playing_noop_witness :
    playVoice { initVoice with status := .playing } = { initVoice with status := .playing }
    ∧ rl_PlaySound
        { stream :=
            { buffer := some ([5], { initVoice with status := .playing }),
              sampleRate := 22050, sampleSize := 32, channels := 2 },
          frameCount := 1 }
      = { stream :=
            { buffer := some ([5], { initVoice with status := .playing }),
              sampleRate := 22050, sampleSize := 32, channels := 2 },
          frameCount := 1 } := by
  exact ⟨play_on_playing_noop.1 { initVoice with status := .playing } rfl,
    play_on_playing_noop.2.2
      { stream :=
          { buffer := some ([5], { initVoice with status := .playing }),
            sampleRate := 22050, sampleSize := 32, channels := 2 },
        frameCount := 1 } rfl⟩

/-- C2: unloading an alias only decrements the shared buffer's reference
count and never frees or mutates the shared sample data; the storage is
freed exactly when the count reaches zero, never while siblings hold
references; creating an alias increments the count and shares the data. -/
theorem alias_refcount_discipline (b : SharedBuffer)
    (hlive : b.freed = false) (hpos : 1 ≤ b.refCount) :
    (aliasRelease b).data = b.data
    ∧ (aliasRelease b).refCount = b.refCount - 1
    ∧ ((aliasRelease b).freed = true ↔ b.refCount = 1)
    ∧ (2 ≤ b.refCount → (aliasRelease b).freed = false)
    ∧ (aliasRetain b).data = b.data
    ∧ (aliasRetain b).refCount = b.refCount + 1
    ∧ (aliasRetain b).freed = false := by
  unfold aliasRelease aliasRetain
  refine ⟨?_, ?_, ?_, ?_, rfl, rfl, hlive⟩
  · split <;> rfl
  · split
    · simpa using (by omega : b.refCount - 1 = 0 → 0 = b.refCount - 1) (by assumption)
    · rfl
  · constructor
    · intro h
      by_cases hc : b.refCount - 1 = 0
      · omega
      · rw [if_neg hc] at h
        rw [hlive] at h
        exact absurd h (by simp)
    · intro h
      rw [if_pos (by omega)]
  · intro h2
    rw [if_neg (by omega)]
    exact hlive

/-- Witness for C2 at a buffer shared by a source and one alias. -/
theorem alias_refcount_discipline_witness :
    (aliasRelease { data := [1, 2, 3], refCount := 2, freed := false }).data
        = [1, 2, 3]
    ∧ (aliasRelease { data := [1, 2, 3], refCount := 2, freed := false }).freed
        = false
    ∧ (aliasRetain { data := [1, 2, 3], refCount := 2, freed := false }).refCount
        = 3 := by
  have h := alias_refcount_discipline
    { data := [1, 2, 3], refCount := 2, freed := false } rfl (by norm_num)
  exact ⟨h.1, h.2.2.2.1 (by norm_num), h.2.2.2.2.2.1⟩

/-- C10: every playback-control and parameter operation on a sound has
exactly the effect of the corresponding stream operation applied to the
embedded stream, and each leaves the wrapper's only extra field, the
frame count, unchanged. -/
theorem sound_refines_stream (s : rl_Sound) (v : ℚ) :
    rl_PlaySound s = { s with stream := rl_PlayAudioStream s.stream }
    ∧ rl_StopSound s = { s with stream := rl_StopAudioStream s.stream }
    ∧ rl_PauseSound s = { s with stream := rl_PauseAudioStream s.stream }
    ∧ rl_ResumeSound s = { s with stream := rl_ResumeAudioStream s.stream }
    ∧ rl_IsSoundPlaying s = rl_IsAudioStreamPlaying s.stream
    ∧ rl_SetSoundVolume s v = { s with stream := rl_SetAudioStreamVolume s.stream v }
    ∧ rl_SetSoundPitch s v = { s with stream := rl_SetAudioStreamPitch s.stream v }
    ∧ rl_SetSoundPan s v = { s with stream := rl_SetAudioStreamPan s.stream v }
    ∧ (rl_PlaySound s).frameCount = s.frameCount
    ∧ (rl_StopSound s).frameCount = s.frameCount
    ∧ (rl_PauseSound s).frameCount = s.frameCount
    ∧ (rl_ResumeSound s).frameCount = s.frameCount
    ∧ (rl_SetSoundVolume s v).frameCount = s.frameCount
    ∧ (rl_SetSoundPitch s v).frameCount = s.frameCount
    ∧ (rl_SetSoundPan s v).frameCount = s.frameCount := by
  refine ⟨rfl, rfl, rfl, rfl, ?_, rfl, rfl, rfl, rfl, rfl, rfl, rfl, rfl, rfl, rfl⟩
  unfold rl_IsSoundPlaying rl_IsAudioStreamPlaying
  rfl

/-- C9: a failed load returns the zeroed, not-ready resource value for
every loadable resource type, the matching readiness query returns false
on it and true on every successfully loaded resource. -/
theorem failed_load_not_ready :
    (rl_LoadWave none = zeroWave ∧ rl_IsWaveReady (rl_LoadWave none) = false)
    ∧ (∀ (d : List Sample) (fc rate size ch : ℕ),
        0 < fc → 0 < rate → 0 < size → 0 < ch →
        rl_IsWaveReady (rl_LoadWave (some (d, fc, rate, size, ch))) = true)
    ∧ (∀ rate size ch : ℕ,
        rl_LoadAudioStream none rate size ch = zeroAudioStream
        ∧ rl_IsAudioStreamReady (rl_LoadAudioStream none rate size ch) = false)
    ∧ (∀ (b : List Sample × VoiceState) (rate size ch : ℕ),
        0 < rate → 0 < size → 0 < ch →
        rl_IsAudioStreamReady (rl_LoadAudioStream (some b) rate size ch) = true)
    ∧ (rl_LoadSoundFromWave zeroWave = zeroSound
        ∧ rl_IsSoundReady (rl_LoadSoundFromWave zeroWave) = false)
    ∧ (∀ w : rl_Wave, rl_IsWaveReady w = true →
        rl_IsSoundReady (rl_LoadSoundFromWave w) = true)
    ∧ (∀ wnd : List Sample × VoiceState,
        rl_LoadMusicStream none wnd = zeroMusic
        ∧ rl_IsMusicReady (rl_LoadMusicStream none wnd) = false)
    ∧ (∀ (c : DecodeCtx) (fc rate size ch : ℕ) (wnd : List Sample × VoiceState),
        0 < fc → 0 < rate → 0 < size → 0 < ch →
        rl_IsMusicReady
          (rl_LoadMusicStream (some (c, fc, rate, size, ch)) wnd) = true)
    ∧ (∀ s : rl_Sound, rl_IsSoundReady s = false →
        rl_LoadSoundAlias s = zeroSound
        ∧ rl_IsSoundReady (rl_LoadSoundAlias s) = false)
    ∧ (∀ s : rl_Sound, rl_IsSoundReady s = true →
        rl_IsSoundReady (rl_LoadSoundAlias s) = true) := by
  refine ⟨⟨rfl, by decide⟩, ?_, ?_, ?_, ⟨rfl, by decide⟩, ?_, ?_, ?_, ?_, ?_⟩
  · intro d fc rate size ch h1 h2 h3 h4
    simp [rl_LoadWave, rl_IsWaveReady, h1, h2, h3, h4]
  · intro rate size ch
    exact ⟨rfl, by simp [rl_IsAudioStreamReady, rl_LoadAudioStream, zeroAudioStream]⟩
  · intro b rate size ch h1 h2 h3
    simp [rl_LoadAudioStream, rl_IsAudioStreamReady, h1, h2, h3]
  · intro w hw
    obtain ⟨⟨⟨⟨hd, hfc⟩, hrate⟩, hsize⟩, hch⟩ :
        (((w.data.isSome = true ∧ 0 < w.frameCount) ∧ 0 < w.sampleRate)
          ∧ 0 < w.sampleSize) ∧ 0 < w.channels := by
      simpa [rl_IsWaveReady] using hw
    match hdd : w.data with
    | none => rw [hdd] at hd; exact absurd hd (by simp)
    | some d =>
      simp [rl_LoadSoundFromWave, hdd, hfc, hrate, hsize, hch,
        rl_IsSoundReady, rl_IsAudioStreamReady]
  · intro wnd
    exact ⟨rfl, by simp [rl_IsMusicReady, rl_LoadMusicStream, zeroMusic,
      rl_IsAudioStreamReady, zeroAudioStream]⟩
  · intro c fc rate size ch wnd h1 h2 h3 h4
    simp [rl_LoadMusicStream, rl_IsMusicReady, rl_IsAudioStreamReady,
      h1, h2, h3, h4]
  · intro s h
    have hz : rl_LoadSoundAlias s = zeroSound := by
      unfold rl_LoadSoundAlias
      rw [if_neg (by simp [h])]
    exact ⟨hz, by rw [hz]; decide⟩
  · intro s h
    obtain ⟨⟨⟨⟨hb, hr⟩, hs⟩, hc⟩, hf⟩ :
        (((s.stream.buffer.isSome = true ∧ 0 < s.stream.sampleRate)
            ∧ 0 < s.stream.sampleSize) ∧ 0 < s.stream.channels)
          ∧ 0 < s.frameCount := by
      simpa [rl_IsSoundReady, rl_IsAudioStreamReady] using h
    match hbb : s.stream.buffer with
    | none => rw [hbb] at hb; exact absurd hb (by simp)
    | some b =>
      simp [rl_LoadSoundAlias, h, hbb, rl_IsSoundReady,
        rl_IsAudioStreamReady, hr, hs, hc, hf]

/-- Witness for C9 at concrete collaborator results, including a failed
alias of the zeroed sound and a successful alias of a ready sound. -/
theorem failed_load_not_ready_witness :
    rl_IsWaveReady (rl_LoadWave none) = false
    ∧ rl_IsWaveReady (rl_LoadWave (some ([1, 2], 2, 44100, 16, 1))) = true
    ∧ rl_IsAudioStreamReady (rl_LoadAudioStream none 44100 16 1) = false
    ∧ rl_IsAudioStreamReady
        (rl_LoadAudioStream (some ([1, 2], initVoice)) 44100 16 1) = true
    ∧ rl_LoadSoundAlias zeroSound = zeroSound
    ∧ rl_IsSoundReady (rl_LoadSoundAlias zeroSound) = false
    ∧ rl_IsSoundReady
        (rl_LoadSoundAlias
          { stream :=
              { buffer := some ([1, 2], initVoice), sampleRate := 44100,
                sampleSize := 16, channels := 1 },
            frameCount := 2 }) = true := by
  have h := failed_load_not_ready
  have halias := h.2.2.2.2.2.2.2.2.1 zeroSound (by decide)
  exact ⟨h.1.2, h.2.1 [1, 2] 2 44100 16 1 (by norm_num) (by norm_num)
      (by norm_num) (by norm_num),
    (h.2.2.1 44100 16 1).2,
    h.2.2.2.1 ([1, 2], initVoice) 44100 16 1 (by norm_num) (by norm_num)
      (by norm_num),
    halias.1, halias.2,
    h.2.2.2.2.2.2.2.2.2
      { stream :=
          { buffer := some ([1, 2], initVoice), sampleRate := 44100,
            sampleSize := 16, channels := 1 },
        frameCount := 2 } (by decide)⟩

/-- C6 counterexample: for a stage already present in the chain, attach
is an idempotent no-op but detach still removes the pre-existing stage,
so the attach/detach round trip is not output-identity. -/
theorem attach_detach_roundtrip_counterexample :
    applyChain exInterp (detachProcessor 0 (attachProcessor 0 [0])) [0]
      ≠ applyChain exInterp [0] [0] := by
  simp [exInterp, applyChain, detachProcessor, attachProcessor]

/-- C6 amended: for a stage not already in the chain, attaching then
immediately detaching it restores the chain exactly — the remaining
stages keep their insertion order — and the output over any block is
bit-identical to never having attached it; the same operations drive the
global post-mix chain. -/
theorem attach_detach_roundtrip (interp : StageId → List Sample → List Sample)
    (p : StageId) (c : List StageId) (h : p ∉ c) (block : List Sample) :
    detachProcessor p (attachProcessor p c) = c
    ∧ applyChain interp (detachProcessor p (attachProcessor p c)) block
      = applyChain interp c block := by
  have h1 : attachProcessor p c = c ++ [p] := if_neg h
  have h2 : detachProcessor p (attachProcessor p c) = c := by
    rw [h1]
    unfold detachProcessor
    rw [List.erase_append_right [p] h]
    simp
  exact ⟨h2, by rw [h2]⟩

/-- Witness for the amended C6 at a concrete chain, stage and block. -/
theorem attach_detach_roundtrip_witness :
    detachProcessor 1 (attachProcessor 1 [0]) = [0]
    ∧ applyChain exInterp (detachProcessor 1 (attachProcessor 1 [0])) [2, 3]
      = applyChain exInterp [0] [2, 3] := by
  exact attach_detach_roundtrip exInterp 1 [0] (by decide) [2, 3]

/-- Decoding below end-of-stream returns the frame at the decode position
and advances it, for looping and non-looping contexts alike. -/
theorem decodeNext_lt (loop : Bool) (c : DecodeCtx)
    (h : c.pos < c.source.length) :
    decodeNext loop c
      = some (c.source.get ⟨c.pos, h⟩, { c with pos := c.pos + 1 }) := by
  unfold decodeNext
  rw [dif_pos h]

/-- At end-of-stream a looping context seeks back to the start: the next
decoded frame is frame 0 and the position restarts past it. -/
theorem decodeNext_eos_loop (c : DecodeCtx)
    (h : ¬ c.pos < c.source.length) (hlen : c.source.length ≠ 0) :
    decodeNext true c = some (c.source.getD 0 0, { c with pos := 1 }) := by
  unfold decodeNext
  rw [dif_neg h, if_pos (by simp [hlen])]

/-- At end-of-stream a non-looping context signals end-of-stream. -/
theorem decodeNext_eos_noloop (c : DecodeCtx)
    (h : ¬ c.pos < c.source.length) :
    decodeNext false c = none := by
  unfold decodeNext
  rw [dif_neg h]
  simp

/-- A looping decode context delivers the source cyclically: starting
from any in-range position p, the n-th delivered frame is the source
frame at index (p + n) mod length — frame 0 follows the tail frame with
no gap and no repetition. -/
theorem decodeSeq_loop_eq (src : List Sample) (hlen : 0 < src.length) :
    ∀ (n p : ℕ), p ≤ src.length →
      decodeSeq true n ⟨src, p⟩ = some (src.getD ((p + n) % src.length) 0) := by
  intro n
  induction n with
  | zero =>
    intro p hp
    by_cases hlt : p < src.length
    · rw [decodeSeq, decodeNext_lt true ⟨src, p⟩ hlt]
      simp [Nat.mod_eq_of_lt hlt, List.getD, List.getElem?_eq_getElem hlt]
    · have hpe : p = src.length := by omega
      rw [decodeSeq, decodeNext_eos_loop ⟨src, p⟩ hlt (by show src.length ≠ 0; omega)]
      simp [hpe, Nat.mod_self]
  | succ n ih =>
    intro p hp
    by_cases hlt : p < src.length
    · rw [decodeSeq, decodeNext_lt true ⟨src, p⟩ hlt]
      have heq : p + 1 + n = p + (n + 1) := by omega
      simpa [heq] using ih (p + 1) (by omega)
    · have hpe : p = src.length := by omega
      rw [decodeSeq, decodeNext_eos_loop ⟨src, p⟩ hlt (by show src.length ≠ 0; omega)]
      have heq : (1 : ℕ) + n = n + 1 := by omega
      have hmod : (p + (n + 1)) % src.length = (n + 1) % src.length := by
        rw [hpe]
        exact Nat.add_mod_left src.length (n + 1)
      simpa [heq, hmod] using ih 1 (by omega)

/-- A non-looping context at end-of-stream refills nothing. -/
theorem refill_eos (c : DecodeCtx) (h : c.source.length ≤ c.pos) (k : ℕ) :
    refill false c k = ([], c) := by
  cases k with
  | zero => rfl
  | succ k => simp [refill, decodeNext_eos_noloop c (by omega)]

/-- A refill below end-of-stream begins with the frame at the decode
position. -/
theorem refill_head (loop : Bool) (c : DecodeCtx)
    (h : c.pos < c.source.length) (k : ℕ) :
    (refill loop c (k + 1)).1
      = c.source.getD c.pos 0
        :: (refill loop { c with pos := c.pos + 1 } k).1 := by
  simp [refill, decodeNext_lt loop c h, List.getD, List.getElem?_eq_getElem h]

/-- C3: when the decode context reaches end-of-stream during the update,
the loop flag decides: a looping context seeks back to the start and the
decoded frames continue with frame 0 of the source, with no gap and no
repeated tail frame (cyclic closed form); a non-looping track transitions
to Stopped exactly once its window of buffered frames is exhausted, and
keeps its status while frames remain buffered. -/
theorem music_eos_loops_or_stops (src : List Sample) (hlen : 0 < src.length)
    (n : ℕ) (m : MusicState) (cap : ℕ) :
    decodeSeq true n ⟨src, 0⟩ = some (src.getD (n % src.length) 0)
    ∧ (m.looping = false → m.ctx.source.length ≤ m.ctx.pos → m.window = [] →
        (rl_UpdateMusicStream cap m).status = .stopped)
    ∧ (m.window ≠ [] → (rl_UpdateMusicStream cap m).status = m.status) := by
  refine ⟨?_, ?_, ?_⟩
  · simpa using decodeSeq_loop_eq src hlen n 0 (by omega)
  · intro hl he hw
    simp [rl_UpdateMusicStream, hw, hl, refill_eos m.ctx he]
  · intro hw
    match hcase : m.window with
    | [] => exact absurd hcase hw
    | x :: rest => simp [rl_UpdateMusicStream, hcase]

/-- Witness for C3: the looping decode wraps to frame 0 after the tail
(4 mod 3 = 1 gives the second frame), and the starved non-looping track
stops. -/
theorem music_eos_loops_or_stops_witness :
    decodeSeq true 4 { source := [10, 20, 30], pos := 0 } = some 20
    ∧ (rl_UpdateMusicStream 2 exMusicEos).status = .stopped := by
  have h := music_eos_loops_or_stops [10, 20, 30] (by norm_num) 4 exMusicEos 2
  exact ⟨by simpa using h.1, h.2.1 rfl (by decide) rfl⟩

/-- C4: with its window emptied by a starved update cadence, the mixer's
per-frame read substitutes silence and leaves the track untouched; every
read with buffered frames consumes exactly the window head, never memory
outside the window; and once an update refills the window the next read
resumes with the correct source frame at the decode position. -/
theorem starved_window_silence (m : MusicState) (cap : ℕ) :
    (m.window = [] → mixMusicFrame m = (0, m))
    ∧ (∀ x rest, m.window = x :: rest →
        (mixMusicFrame m).1 = x ∧ (mixMusicFrame m).2.window = rest)
    ∧ (m.window = [] → m.ctx.pos < m.ctx.source.length → 0 < cap →
        (mixMusicFrame (rl_UpdateMusicStream cap m)).1
          = m.ctx.source.getD m.ctx.pos 0) := by
  refine ⟨?_, ?_, ?_⟩
  · intro hw
    simp [mixMusicFrame, hw]
  · intro x rest hw
    simp [mixMusicFrame, hw]
  · intro hw hpos hc
    obtain ⟨k, rfl⟩ : ∃ k, cap = k + 1 := ⟨cap - 1, by omega⟩
    simp only [rl_UpdateMusicStream, hw, List.length_nil, Nat.sub_zero,
      List.nil_append]
    rw [refill_head m.looping m.ctx hpos k]
    simp [mixMusicFrame]

/-- Witness for C4: the starved read yields silence; after one refilling
update the read resumes with the source frame at the decode position. -/
theorem starved_window_silence_witness :
    mixMusicFrame exMusicStarved = (0, exMusicStarved)
    ∧ (mixMusicFrame (rl_UpdateMusicStream 2 exMusicStarved)).1 = 7 := by
  have h := starved_window_silence exMusicStarved 2
  exact ⟨h.1 rfl, by simpa using h.2.2 rfl (by decide) (by norm_num)⟩

/-- Summing a map that is zero outside a predicate equals summing the map
over the filtered list. -/
theorem sum_map_ite (g : ℕ → ℚ) (p : ℕ → Prop) [DecidablePred p] :
    ∀ l : List ℕ,
      (l.map (fun s => if p s then g s else 0)).sum
        = ((l.filter (fun s => decide (p s))).map g).sum := by
  intro l
  induction l with
  | nil => rfl
  | cons a l ih =>
    by_cases h : p a
    · simp [List.filter_cons, h, ih]
    · simp [List.filter_cons, h, ih]

/-- Starting due voices then advancing playing cursors keeps every alias
at its closed-form state: playing with cursor t − s once its start time s
has passed. -/
theorem afterTicks_eq (buf : List Sample) (starts : List ℕ) :
    ∀ t, afterTicks buf starts t = starts.map (aliasStateAt t) := by
  intro t
  induction t with
  | zero =>
    show starts.map (fun _ => idleAlias) = starts.map (aliasStateAt 0)
    exact List.map_eq_map_iff.mpr (fun s _ => by simp [aliasStateAt])
  | succ t ih =>
    rw [afterTicks, ih]
    show (List.zipWith (startDue t) starts (starts.map (aliasStateAt t))).map stepVoice
        = starts.map (aliasStateAt (t + 1))
    rw [List.zipWith_map_right, List.zipWith_same, List.map_map]
    apply List.map_eq_map_iff.mpr
    intro s _
    simp only [Function.comp]
    by_cases h1 : s = t
    · subst h1
      simp [startDue, stepVoice, aliasStateAt, idleAlias]
    · by_cases h2 : s < t
      · have h3 : s < t + 1 := by omega
        simp [startDue, stepVoice, aliasStateAt, h1, h2, h3, idleAlias]
        omega
      · have h3 : ¬ s < t + 1 := by omega
        simp [startDue, stepVoice, aliasStateAt, h1, h2, h3, idleAlias]

/-- The mixed sample of a voice list with one entry replaced: the total
changes exactly by swapping that voice's contribution. -/
theorem mixOut_set (buf : List Sample) (vs : List AliasVoice) (i : ℕ)
    (hi : i < vs.length) (x : AliasVoice) :
    mixOut buf (vs.set i x)
      = mixOut buf vs - voiceSample buf (vs.getD i idleAlias)
        + voiceSample buf x := by
  unfold mixOut
  rw [List.map_set, List.sum_set']
  rw [dif_pos (by simpa using hi)]
  simp only [List.getElem_map]
  rw [List.getD_eq_getElem vs idleAlias hi]
  ring

/-- C1: running the mixer over N aliases of one resident buffer with
scheduled start times, the output at any tick t is the superposition of
every started alias's buffer read at its own offset t − s; and stopping
one alias leaves every sibling's state and contribution unchanged while
the mixed output drops exactly the stopped alias's contribution. -/
theorem alias_mixing_superposition (buf : List Sample) (starts : List ℕ)
    (t : ℕ) (vs : List AliasVoice) (i j : ℕ)
    (hi : i < vs.length) (hij : j ≠ i) :
    outputAt buf starts t = superposition buf starts t
    ∧ (stopAlias vs i).getD j idleAlias = vs.getD j idleAlias
    ∧ voiceSample buf ((stopAlias vs i).getD j idleAlias)
      = voiceSample buf (vs.getD j idleAlias)
    ∧ mixOut buf (stopAlias vs i)
      = mixOut buf vs - voiceSample buf (vs.getD i idleAlias) := by
  have hset : (stopAlias vs i).getD j idleAlias = vs.getD j idleAlias := by
    unfold stopAlias
    simp [List.getD, List.getElem?_set_ne (Ne.symm hij)]
  refine ⟨?_, hset, by rw [hset], ?_⟩
  · unfold outputAt
    rw [afterTicks_eq buf starts t]
    show ((List.zipWith (startDue t) starts (starts.map (aliasStateAt t))).map
        (voiceSample buf)).sum = superposition buf starts t
    rw [List.zipWith_map_right, List.zipWith_same, List.map_map]
    have hpt : ∀ s : ℕ,
        (voiceSample buf ∘ fun s => startDue t s (aliasStateAt t s)) s
          = if s ≤ t then readBuf buf (t - s) else 0 := by
      intro s
      simp only [Function.comp]
      by_cases h1 : s = t
      · subst h1
        simp [startDue, aliasStateAt, voiceSample]
      · by_cases h2 : s < t
        · have h3 : s ≤ t := by omega
          simp [startDue, aliasStateAt, voiceSample, h1, h2, h3]
        · have h3 : ¬ s ≤ t := by omega
          simp [startDue, aliasStateAt, voiceSample, h1, h2, h3, idleAlias]
    rw [List.map_congr_left (fun s _ => hpt s)]
    exact sum_map_ite (fun s => readBuf buf (t - s)) (fun s => s ≤ t) starts
  · unfold stopAlias
    rw [mixOut_set buf vs i hi]
    have hx : voiceSample buf
        { vs.getD i idleAlias with playing := false } = 0 := by
      simp [voiceSample]
    rw [hx]
    ring

/-- Witness for C1: a 14-frame buffer, three aliases started at ticks 0,
5 and 10; at tick 12 the mixed output is the superposition of the reads
at offsets 12, 7 and 2, and stopping the second alias drops exactly its
contribution. -/
theorem alias_mixing_superposition_witness :
    outputAt exAliasBuf [0, 5, 10] 12 = superposition exAliasBuf [0, 5, 10] 12
    ∧ mixOut exAliasBuf (stopAlias exAliasVoices 1)
      = mixOut exAliasBuf exAliasVoices
        - voiceSample exAliasBuf (exAliasVoices.getD 1 idleAlias)
    ∧ superposition exAliasBuf [0, 5, 10] 12
      = readBuf exAliasBuf 12 + readBuf exAliasBuf 7 + readBuf exAliasBuf 2 := by
  have h := alias_mixing_superposition exAliasBuf [0, 5, 10] 12 exAliasVoices
    1 0 (by decide) (by decide)
  refine ⟨h.1, h.2.2.2, ?_⟩
  simp [superposition, readBuf, exAliasBuf]
  norm_num

end Raudio
